import Mathlib

/-!
Verification of the job-queue and status-tracking subsystem of the
`kiyor/index-tts` repository (files `webui.py` and `api_server.py`).

The Python code is shallowly embedded: Python `float` timestamps are
modelled as rationals (`ℚ`), `collections.deque(maxlen=n)` as a list with
an oldest-evicting append, `queue.Queue` as a FIFO list (head = next to
dequeue), and the opaque inference call (`tts_instance.infer` /
`infer_fast`) as a parameter `synth : Task → Except String String`
returning either an error message or a result path.  Wall-clock reads
(`time.time()`) are passed in explicitly as arguments.
-/

namespace WebUI

/-- `TaskStatus` from `webui.py`: the four lifecycle states. -/
inductive TaskStatus where
  | queued
  | running
  | completed
  | failed
deriving DecidableEq, Repr

/-- Opaque pass-through inference parameters (`params: Dict[str, Any]`);
the queue never inspects them. -/
abbrev Params := List (String × String)

/-- The `Task` dataclass from `webui.py`.  `start_time`/`end_time` are 0
until the corresponding transition, matching the Python defaults. -/
structure Task where
  id : String
  prompt : String
  text : String
  infer_mode : String
  params : Params
  status : TaskStatus := TaskStatus.queued
  created_time : ℚ := 0
  start_time : ℚ := 0
  end_time : ℚ := 0
  result_path : Option String := none
  error_message : Option String := none
deriving DecidableEq, Repr

/-- Append to a `collections.deque(maxlen := cap)`: when the deque is
full the oldest (leftmost) element is evicted. -/
def dequeAppend (cap : Nat) (xs : List α) (x : α) : List α :=
  if xs.length < cap then xs ++ [x] else xs.tail ++ [x]

/-- `statistics.mean`: arithmetic mean of a list of rationals. -/
def mean (xs : List ℚ) : ℚ := xs.sum / xs.length

/-- The mutable state of `TaskQueue` from `webui.py`:
FIFO queue (head is dequeued first), optional current task, bounded
history (`deque(maxlen=50)`), bounded execution times
(`deque(maxlen=20)`). -/
structure TaskQueue where
  queue : List Task := []
  current_task : Option Task := none
  task_history : List Task := []
  execution_times : List ℚ := []
deriving DecidableEq, Repr

/-- `TaskQueue.__init__`: everything empty. -/
def TaskQueue.init : TaskQueue := {}

/-- History capacity (`max_history=50` in `TaskQueue.__init__`). -/
def maxHistory : Nat := 50

/-- Execution-times capacity (`deque(maxlen=20)`). -/
def maxExecTimes : Nat := 20

/-- The task constructed by `TaskQueue.add_task`: status `queued`,
`created_time` set by `__post_init__` (here the explicit `now`
argument), timestamps zero.  The uuid-based id is modelled as an
explicit argument. -/
def mkTask (id prompt text infer_mode : String) (params : Params) (now : ℚ) : Task :=
  { id := id, prompt := prompt, text := text, infer_mode := infer_mode,
    params := params, status := TaskStatus.queued, created_time := now }

/-- `TaskQueue.add_task`: build the task and `queue.put` it (FIFO: the
new task goes to the back).  Returns the id together with the new
state. -/
def TaskQueue.add_task (st : TaskQueue) (id prompt text infer_mode : String)
    (params : Params) (now : ℚ) : String × TaskQueue :=
  let task := mkTask id prompt text infer_mode params now
  (task.id, { st with queue := st.queue ++ [task] })

/-- One full iteration of the body of `TaskQueue._worker` once
`queue.get` has returned a task (an empty queue raises `queue.Empty`
and the loop just continues, leaving the state unchanged).
`synth` stands for the `tts_instance.infer` / `infer_fast` call;
`tstart` is the `time.time()` read at the `Running` transition and
`tend` the one at the terminal transition. -/
def TaskQueue.worker_step (synth : Task → Except String String)
    (tstart tend : ℚ) (st : TaskQueue) : TaskQueue :=
  match st.queue with
  | [] => st
  | task :: rest =>
    -- `self.current_task = task; task.status = RUNNING; task.start_time = time.time()`
    let task := { task with status := TaskStatus.running, start_time := tstart }
    match synth task with
    | Except.ok result =>
      -- success branch: COMPLETED, record execution time, move to history
      let task := { task with
                    status := TaskStatus.completed
                    end_time := tend
                    result_path := some result }
      { queue := rest,
        current_task := none,
        task_history := dequeAppend maxHistory st.task_history task,
        execution_times :=
          dequeAppend maxExecTimes st.execution_times (task.end_time - task.start_time) }
    | Except.error e =>
      -- failure branch: FAILED, move to history (no execution time recorded)
      let task := { task with
                    status := TaskStatus.failed
                    end_time := tend
                    error_message := some e }
      { queue := rest,
        current_task := none,
        task_history := dequeAppend maxHistory st.task_history task,
        execution_times := st.execution_times }

/-- `TaskQueue._estimate_remaining_time`: 0 when no current task or no
recorded execution times, else `max(0, avg - elapsed)`. -/
def TaskQueue.estimate_remaining_time (st : TaskQueue) (now : ℚ) : ℚ :=
  match st.current_task with
  | none => 0
  | some ct =>
    if st.execution_times = [] then 0
    else max 0 (mean st.execution_times - (now - ct.start_time))

/-- `TaskQueue._estimate_wait_time`: 0 when the queue is empty or no
recorded execution times, else remaining time of the current task plus
one average slot per queued task. -/
def TaskQueue.estimate_wait_time (st : TaskQueue) (queue_size : Nat) (now : ℚ) : ℚ :=
  if queue_size = 0 ∨ st.execution_times = [] then 0
  else st.estimate_remaining_time now + queue_size * mean st.execution_times

/-- `TaskQueue.get_task_result`: check the current task first, then scan
the history front to back; `none` models Python's `None`. -/
def TaskQueue.get_task_result (st : TaskQueue) (task_id : String) : Option Task :=
  match st.current_task with
  | some ct =>
    if ct.id = task_id then some ct
    else st.task_history.find? (fun t => t.id = task_id)
  | none => st.task_history.find? (fun t => t.id = task_id)

/-- Events emitted by one iteration of `TaskQueue._worker`: the status
assignments it performs, in program order, tagged with the task id.
A dequeued task is first set `running`, then — depending on the outcome
of the inference call — `completed` or `failed`. -/
def TaskQueue.worker_step_events (synth : Task → Except String String)
    (tstart : ℚ) (st : TaskQueue) : List (String × TaskStatus) :=
  match st.queue with
  | [] => []
  | task :: _ =>
    let task := { task with status := TaskStatus.running, start_time := tstart }
    match synth task with
    | Except.ok _ => [(task.id, TaskStatus.running), (task.id, TaskStatus.completed)]
    | Except.error _ => [(task.id, TaskStatus.running), (task.id, TaskStatus.failed)]

/-- The ids of the tasks the worker marks `Running`, in order, over `n`
iterations of the loop; `times k` supplies the two `time.time()` reads
of iteration `k`.  No tasks are added during the run, so once the queue
is empty no further task ever begins. -/
def TaskQueue.worker_begin_trace (synth : Task → Except String String)
    (times : Nat → ℚ × ℚ) : Nat → TaskQueue → List String
  | 0, _ => []
  | n + 1, st =>
    match st.queue with
    | [] => []
    | task :: _ =>
      task.id :: TaskQueue.worker_begin_trace synth (fun k => times (k + 1)) n
        (TaskQueue.worker_step synth (times 0).1 (times 0).2 st)

/-- One submission to `TaskQueue.add_task` (the uuid and the
`time.time()` read are explicit). -/
structure TaskInput where
  id : String
  prompt : String
  text : String
  infer_mode : String
  params : Params
  now : ℚ
deriving DecidableEq, Repr

/-- `mkTask` applied to a `TaskInput`. -/
def TaskInput.toTask (i : TaskInput) : Task :=
  mkTask i.id i.prompt i.text i.infer_mode i.params i.now

/-- Sequential, non-overlapping submissions: `add_task` once per input,
in order. -/
def TaskQueue.add_tasks (st : TaskQueue) : List TaskInput → TaskQueue
  | [] => st
  | i :: is =>
    TaskQueue.add_tasks (st.add_task i.id i.prompt i.text i.infer_mode i.params i.now).2 is

end WebUI

namespace WebUIRefs

/-!
Reference-level model of `TaskQueue.get_task_result` from `webui.py`.
Python hands out object references: `return self.current_task` returns
the very object the registry holds, not a copy.  To talk about
aliasing, the object heap is explicit: tasks live in a heap addressed
by `Nat` references, and the registry stores references. -/

/-- An object heap mapping references to `Task` objects. -/
abbrev Heap := List (Nat × WebUI.Task)

/-- Dereference. -/
def heapGet (h : Heap) (r : Nat) : Option WebUI.Task :=
  (h.find? (fun p => p.1 = r)).map Prod.snd

/-- In-place mutation of the object behind reference `r`. -/
def heapSet (h : Heap) (r : Nat) (t : WebUI.Task) : Heap :=
  h.map (fun p => if p.1 = r then (p.1, t) else p)

/-- The registry state of `TaskQueue`, with tasks held by reference as
in Python. -/
structure RTaskQueue where
  heap : Heap
  current_ref : Option Nat
  history_refs : List Nat
deriving DecidableEq, Repr

/-- `TaskQueue.get_task_result`: check the current task first, then the
history; the returned value is the registry's own reference (Python
returns the shared object itself). -/
def RTaskQueue.get_task_result (st : RTaskQueue) (task_id : String) : Option Nat :=
  match st.current_ref with
  | some r =>
    if (heapGet st.heap r).any (fun t => t.id = task_id) then some r
    else st.history_refs.find? (fun r => (heapGet st.heap r).any (fun t => t.id = task_id))
  | none =>
    st.history_refs.find? (fun r => (heapGet st.heap r).any (fun t => t.id = task_id))

/-- The status of the registry's current task, as e.g.
`get_queue_status` observes it. -/
def RTaskQueue.currentStatus (st : RTaskQueue) : Option WebUI.TaskStatus :=
  match st.current_ref with
  | some r => (heapGet st.heap r).map WebUI.Task.status
  | none => none

/-- A caller writing a field through a task reference it was handed
(Python: `task.status = ...` on the returned object). -/
def RTaskQueue.callerWriteStatus (st : RTaskQueue) (r : Nat) (s : WebUI.TaskStatus) :
    RTaskQueue :=
  match heapGet st.heap r with
  | none => st
  | some t => { st with heap := heapSet st.heap r { t with status := s } }

end WebUIRefs

namespace ApiServer

/-!
Embedding of the task-management part of `api_server.py`: the module
globals `task_storage` (a dict from task id to `Task`) and the
functions `create_task`, `get_task`, `update_task_status`, together
with the status-update sequence performed by `process_tts_task`.
-/

/-- The `Task` dataclass of `api_server.py`.  Statuses are plain
strings there ("queued", "running", "completed", "failed"), and
`update_task_status` accepts an arbitrary status string, so `status` is
modelled as `String`.  `request_data` is opaque to the lifecycle
logic. -/
structure ApiTask where
  id : String
  status : String
  created_time : ℚ
  start_time : ℚ := 0
  end_time : ℚ := 0
  result_path : Option String := none
  error_message : Option String := none
  progress : ℚ := 0
  request_data : String := ""
deriving DecidableEq, Repr

/-- `task_storage`: a dict from task id to task, modelled as an
association list (insertion order, unique keys in every reachable
state since ids are fresh). -/
abbrev Storage := List (String × ApiTask)

/-- `task_storage.get(task_id)` — also the body of `get_task`. -/
def lookupTask (s : Storage) (task_id : String) : Option ApiTask :=
  (s.find? (fun p => p.1 = task_id)).map Prod.snd

/-- `create_task`: insert a fresh task with status "queued",
`created_time = now`, zero timestamps.  The uuid is an explicit
argument. -/
def create_task (s : Storage) (task_id : String) (request_data : String) (now : ℚ) :
    Storage :=
  s ++ [(task_id, { id := task_id, status := "queued", created_time := now,
                    request_data := request_data })]

/-- The field updates `update_task_status` performs on the stored task:
it overwrites `status`, optionally `progress` (`if progress is not
None`), `error` and `result_path` (Python truthiness: `None` and `""`
are skipped), and then sets `start_time = now` when the new status is
"running", or `end_time = now` when it is "completed" or "failed". -/
def applyUpdate (task : ApiTask) (now : ℚ) (status : String)
    (progress : Option ℚ) (error : Option String) (result_path : Option String) :
    ApiTask :=
  let task := { task with status := status }
  let task := match progress with
    | some p => { task with progress := p }
    | none => task
  let task := match error with
    | some e => if e = "" then task else { task with error_message := some e }
    | none => task
  let task := match result_path with
    | some r => if r = "" then task else { task with result_path := some r }
    | none => task
  if status = "running" then { task with start_time := now }
  else if status = "completed" ∨ status = "failed" then { task with end_time := now }
  else task

/-- The storage effect of `update_task_status`: nothing when the id is
absent, otherwise the in-place mutation of the stored task. -/
def update_task_status (s : Storage) (now : ℚ) (task_id status : String)
    (progress : Option ℚ) (error : Option String) (result_path : Option String) :
    Storage :=
  match lookupTask s task_id with
  | none => s
  | some task =>
    s.map (fun p =>
      if p.1 = task_id
      then (p.1, applyUpdate task now status progress error result_path)
      else p)

/-- The exception-free path of `process_tts_task`: the three
`update_task_status` calls it makes — `("running", 0.1)` at `t1`,
`("running", 0.3)` at `t2`, `("completed", 1.0, result_path)` at
`t3`. -/
def process_tts_task_ok (s : Storage) (task_id result : String) (t1 t2 t3 : ℚ) :
    Storage :=
  let s := update_task_status s t1 task_id "running" (some (1 / 10)) none none
  let s := update_task_status s t2 task_id "running" (some (3 / 10)) none none
  update_task_status s t3 task_id "completed" (some 1) none (some result)

/-- The exception path of `process_tts_task`: the first running update
always happens (it is the first statement of the `try` block); the
exception may arise before or after the second running update (`late`
says which); the `except` clause then issues the failed update with the
error message. -/
def process_tts_task_fail (s : Storage) (task_id errmsg : String) (late : Bool)
    (t1 t2 t3 : ℚ) : Storage :=
  let s := update_task_status s t1 task_id "running" (some (1 / 10)) none none
  let s := if late then update_task_status s t2 task_id "running" (some (3 / 10)) none none
           else s
  update_task_status s t3 task_id "failed" none (some errmsg) none

/-- The status stored for `task_id` observed after admission
(`create_task`) and after each `update_task_status` call of
`process_tts_task`'s success path. -/
def tts_task_status_trace_ok (s : Storage) (task_id request_data result : String)
    (t0 t1 t2 t3 : ℚ) : List (Option String) :=
  let s0 := create_task s task_id request_data t0
  let s1 := update_task_status s0 t1 task_id "running" (some (1 / 10)) none none
  let s2 := update_task_status s1 t2 task_id "running" (some (3 / 10)) none none
  let s3 := update_task_status s2 t3 task_id "completed" (some 1) none (some result)
  [(lookupTask s0 task_id).map ApiTask.status,
   (lookupTask s1 task_id).map ApiTask.status,
   (lookupTask s2 task_id).map ApiTask.status,
   (lookupTask s3 task_id).map ApiTask.status]

/-- The status stored for `task_id` observed after admission and after
each `update_task_status` call of `process_tts_task`'s exception path
when the exception arises after the second running update (`late :=
true` in `process_tts_task_fail`). -/
def tts_task_status_trace_fail_late (s : Storage) (task_id request_data errmsg : String)
    (t0 t1 t2 t3 : ℚ) : List (Option String) :=
  let s0 := create_task s task_id request_data t0
  let s1 := update_task_status s0 t1 task_id "running" (some (1 / 10)) none none
  let s2 := update_task_status s1 t2 task_id "running" (some (3 / 10)) none none
  let s3 := update_task_status s2 t3 task_id "failed" none (some errmsg) none
  [(lookupTask s0 task_id).map ApiTask.status,
   (lookupTask s1 task_id).map ApiTask.status,
   (lookupTask s2 task_id).map ApiTask.status,
   (lookupTask s3 task_id).map ApiTask.status]

/-- The status stored for `task_id` observed after admission and after
each `update_task_status` call of `process_tts_task`'s exception path
when the exception arises before the second running update (`late :=
false` in `process_tts_task_fail`: that update never happens). -/
def tts_task_status_trace_fail_early (s : Storage) (task_id request_data errmsg : String)
    (t0 t1 t3 : ℚ) : List (Option String) :=
  let s0 := create_task s task_id request_data t0
  let s1 := update_task_status s0 t1 task_id "running" (some (1 / 10)) none none
  let s3 := update_task_status s1 t3 task_id "failed" none (some errmsg) none
  [(lookupTask s0 task_id).map ApiTask.status,
   (lookupTask s1 task_id).map ApiTask.status,
   (lookupTask s3 task_id).map ApiTask.status]

end ApiServer

namespace Examples

/-! Concrete fixtures used by witnesses and counterexamples. -/

open WebUI

/-- An inference double that always succeeds. -/
def synthOk : Task → Except String String :=
  fun t => Except.ok ("outputs/task_" ++ t.id ++ ".wav")

/-- An inference double that always fails with message "boom". -/
def synthBoom : Task → Except String String :=
  fun _ => Except.error "boom"

/-- A submitted task. -/
def taskA : Task := mkTask "a" "p.wav" "hello" "mode0" [] 0

/-- A second submitted task. -/
def taskB : Task := mkTask "b" "p.wav" "world" "mode0" [] 0

/-- A queue holding `taskA` only. -/
def queueA : TaskQueue := { queue := [taskA] }

/-- A queue holding `taskA` then `taskB`. -/
def queueAB : TaskQueue := { queue := [taskA, taskB] }

/-- A state with a running current task (started at 1) and two recorded
execution times. -/
def runningState : TaskQueue :=
  { current_task := some { taskA with status := TaskStatus.running, start_time := 1 },
    execution_times := [2, 4] }

/-- The submission that produces `taskA`. -/
def inputA : TaskInput := { id := "a", prompt := "p.wav", text := "hello",
                            infer_mode := "mode0", params := [], now := 0 }

/-- A reference-level registry whose current task is the running
`taskA`, stored behind reference 0. -/
def refState : WebUIRefs.RTaskQueue :=
  { heap := [(0, { taskA with status := TaskStatus.running, start_time := 1 })],
    current_ref := some 0,
    history_refs := [] }

/-- A one-task api-server storage. -/
def apiStorageA : ApiServer.Storage := ApiServer.create_task [] "a" "req" 0

/-- The task `apiStorageA` stores under id "a". -/
def apiTaskA : ApiServer.ApiTask :=
  { id := "a", status := "queued", created_time := 0, request_data := "req" }

/-- The finished copy of `taskA` as the worker stores it in the
history. -/
def taskADone : Task :=
  { taskA with
    status := TaskStatus.completed
    start_time := 1
    end_time := 3
    result_path := some "outputs/task_a.wav" }

/-- A registry state where job "a" is retained only in the terminal
history while a different job "b" is the running current task. -/
def historyState : TaskQueue :=
  { current_task := some { taskB with status := TaskStatus.running, start_time := 4 },
    task_history := [taskADone],
    execution_times := [2] }

end Examples

/-! ## Helper lemmas -/

namespace WebUI

/-- A worker iteration always consumes exactly the head of the queue. -/
theorem worker_step_queue (synth : Task → Except String String) (ts te : ℚ)
    (st : TaskQueue) : (TaskQueue.worker_step synth ts te st).queue = st.queue.tail := by
  unfold TaskQueue.worker_step
  split
  · next heq => simp [heq]
  · next task rest heq =>
    dsimp only
    split <;> simp [heq]

/-- Membership in an oldest-evicting append: every element is an old one
or the appended one. -/
theorem mem_dequeAppend {cap : Nat} {xs : List α} {x a : α}
    (h : a ∈ dequeAppend cap xs x) : a ∈ xs ∨ a = x := by
  unfold dequeAppend at h
  split at h
  · rcases List.mem_append.mp h with h' | h'
    · exact Or.inl h'
    · exact Or.inr (List.mem_singleton.mp h')
  · rcases List.mem_append.mp h with h' | h'
    · exact Or.inl (List.mem_of_mem_tail h')
    · exact Or.inr (List.mem_singleton.mp h')

/-- The newest element of an oldest-evicting append is the appended
one. -/
theorem dequeAppend_getLast? (cap : Nat) (xs : List α) (x : α) :
    (dequeAppend cap xs x).getLast? = some x := by
  unfold dequeAppend
  split <;> exact List.getLast?_concat _

/-- Sequential submissions append their tasks to the queue in order. -/
theorem add_tasks_queue : ∀ (L : List TaskInput) (st : TaskQueue),
    (st.add_tasks L).queue = st.queue ++ L.map TaskInput.toTask := by
  intro L
  induction L with
  | nil => intro st; simp [TaskQueue.add_tasks]
  | cons i is ih =>
    intro st
    rw [TaskQueue.add_tasks, ih]
    simp [TaskQueue.add_task, TaskInput.toTask]

/-- Running the worker for as many iterations as there are queued tasks
marks exactly the queued tasks `Running`, in queue order, whatever the
inference outcomes and timestamps are. -/
theorem worker_begin_trace_eq (synth : Task → Except String String) :
    ∀ (q : List Task) (times : Nat → ℚ × ℚ) (st : TaskQueue), st.queue = q →
      TaskQueue.worker_begin_trace synth times q.length st = q.map Task.id := by
  intro q
  induction q with
  | nil =>
    intro times st h
    simp [TaskQueue.worker_begin_trace]
  | cons t rest ih =>
    intro times st h
    rw [List.length_cons, TaskQueue.worker_begin_trace, h]
    simp only [List.map_cons]
    congr 1
    apply ih
    rw [worker_step_queue, h]
    rfl

/-- After a worker iteration, every task in the history is either a
task that was already there (unchanged, terminal tasks are never
written again) or the just-finished task, which is terminal. -/
theorem worker_step_history_cases (synth : Task → Except String String) (ts te : ℚ)
    (st : TaskQueue) :
    ∀ t ∈ (TaskQueue.worker_step synth ts te st).task_history,
      t ∈ st.task_history ∨ t.status = TaskStatus.completed
        ∨ t.status = TaskStatus.failed := by
  intro t ht
  unfold TaskQueue.worker_step at ht
  split at ht
  · exact Or.inl ht
  · next task rest heq =>
    dsimp only at ht
    split at ht
    · dsimp only at ht
      rcases mem_dequeAppend ht with h | h
      · exact Or.inl h
      · subst h; exact Or.inr (Or.inl rfl)
    · dsimp only at ht
      rcases mem_dequeAppend ht with h | h
      · exact Or.inl h
      · subst h; exact Or.inr (Or.inr rfl)

end WebUI

namespace ApiServer

/-- Replacing the stored task behind a present id is observed by
`lookupTask`. -/
theorem lookupTask_set (s : Storage) (task_id : String) (t' : ApiTask)
    (h : (lookupTask s task_id).isSome) :
    lookupTask (s.map fun p => if p.1 = task_id then (p.1, t') else p) task_id = some t' := by
  induction s with
  | nil => simp [lookupTask] at h
  | cons hd tl ih =>
    by_cases hk : hd.1 = task_id
    · simp [lookupTask, List.find?, hk]
    · have h' : (lookupTask tl task_id).isSome := by
        simpa [lookupTask, List.find?, hk] using h
      simpa [lookupTask, List.find?, hk] using ih h'

/-- `applyUpdate` writes `start_time` exactly when the new status is
"running". -/
theorem applyUpdate_start_time (task : ApiTask) (now : ℚ) (status : String)
    (progress : Option ℚ) (error : Option String) (result_path : Option String) :
    (applyUpdate task now status progress error result_path).start_time
      = if status = "running" then now else task.start_time := by
  unfold applyUpdate
  rcases progress with _ | p <;> rcases error with _ | e <;> rcases result_path with _ | r <;>
    dsimp only <;> split_ifs <;> rfl

/-- Updating a present task is observed by `lookupTask` as
`applyUpdate` on the stored task. -/
theorem update_task_status_lookup (s : Storage) (task : ApiTask) (now : ℚ)
    (task_id status : String) (progress : Option ℚ) (error : Option String)
    (result_path : Option String) (h : lookupTask s task_id = some task) :
    lookupTask (update_task_status s now task_id status progress error result_path)
        task_id
      = some (applyUpdate task now status progress error result_path) := by
  unfold update_task_status
  rw [h]
  exact lookupTask_set s task_id _ (by rw [h]; rfl)

/-- `applyUpdate` always stores exactly the status it was given. -/
theorem applyUpdate_status (task : ApiTask) (now : ℚ) (status : String)
    (progress : Option ℚ) (error : Option String) (result_path : Option String) :
    (applyUpdate task now status progress error result_path).status = status := by
  unfold applyUpdate
  rcases progress with _ | p <;> rcases error with _ | e <;> rcases result_path with _ | r <;>
    dsimp only <;> split_ifs <;> rfl

/-- A freshly created task is found by `lookupTask` with status
"queued". -/
theorem lookupTask_create_fresh (s : Storage) (task_id request_data : String) (now : ℚ)
    (h : lookupTask s task_id = none) :
    lookupTask (create_task s task_id request_data now) task_id
      = some { id := task_id, status := "queued", created_time := now,
               request_data := request_data } := by
  have hf : s.find? (fun p => decide (p.1 = task_id)) = none := by
    unfold lookupTask at h
    exact Option.map_eq_none'.mp h
  unfold lookupTask create_task
  rw [List.find?_append, hf]
  simp [List.find?]

/-- Updating a present task stores exactly the given status, and the
task stays present. -/
theorem update_status_observed (s : Storage) (task_id : String) (now : ℚ)
    (status : String) (progress : Option ℚ) (error : Option String)
    (result_path : Option String) (h : (lookupTask s task_id).isSome) :
    (lookupTask (update_task_status s now task_id status progress error result_path)
        task_id).map ApiTask.status = some status ∧
    (lookupTask (update_task_status s now task_id status progress error result_path)
        task_id).isSome := by
  obtain ⟨task, htask⟩ := Option.isSome_iff_exists.mp h
  rw [update_task_status_lookup s task now task_id status progress error result_path htask]
  exact ⟨by rw [Option.map_some', applyUpdate_status], rfl⟩

end ApiServer

/-! ## Claim theorems -/

/-- C1: for every sequence of jobs submitted one after another via
`TaskQueue.add_task` (no overlap: the submissions happen before the
worker runs, in order), the worker begins executing them in exactly the
submission order — job `i` is marked `Running` before job `i+1` — with
no reordering or priority, whatever the inference outcomes and
timestamps. -/
theorem fifo_execution_order (synth : WebUI.Task → Except String String)
    (times : Nat → ℚ × ℚ) (L : List WebUI.TaskInput) :
    WebUI.TaskQueue.worker_begin_trace synth times L.length
      (WebUI.TaskQueue.init.add_tasks L) = L.map WebUI.TaskInput.id := by
  have hq : (WebUI.TaskQueue.init.add_tasks L).queue = L.map WebUI.TaskInput.toTask := by
    simpa [WebUI.TaskQueue.init] using WebUI.add_tasks_queue L WebUI.TaskQueue.init
  have h := WebUI.worker_begin_trace_eq synth (L.map WebUI.TaskInput.toTask) times _ hq
  rw [List.length_map] at h
  rw [h, List.map_map]
  rfl

/-- C4: `_estimate_remaining_time` returns 0 whenever no job is running
or the execution history is empty; otherwise it returns
`max 0 (mean history - (now - currentJob.start_time))`, with `mean` the
arithmetic mean of all retained durations. -/
theorem estimate_remaining_time_spec (st : WebUI.TaskQueue) (now : ℚ) :
    ((st.current_task = none ∨ st.execution_times = []) →
      st.estimate_remaining_time now = 0) ∧
    (∀ ct, st.current_task = some ct → st.execution_times ≠ [] →
      st.estimate_remaining_time now
        = max 0 (WebUI.mean st.execution_times - (now - ct.start_time))) := by
  constructor
  · intro h
    unfold WebUI.TaskQueue.estimate_remaining_time
    rcases h with h | h
    · rw [h]
    · cases hc : st.current_task with
      | none => rfl
      | some ct => simp [h]
  · intro ct hct hne
    unfold WebUI.TaskQueue.estimate_remaining_time
    rw [hct]
    simp [hne]

/-- Witness for C4 at a concrete state: current task started at 1,
recorded durations `[2, 4]`, queried at time 5. -/
theorem estimate_remaining_time_spec_witness :
    Examples.runningState.estimate_remaining_time 5
      = max 0 (WebUI.mean [2, 4] - (5 - 1)) :=
  (estimate_remaining_time_spec Examples.runningState 5).2
    { Examples.taskA with status := WebUI.TaskStatus.running, start_time := 1 }
    rfl (by decide)

/-- C5: `_estimate_wait_time` returns 0 whenever the queue length is 0
or the execution history is empty; otherwise it returns the remaining
time of the current job plus `queue_size` average slots. -/
theorem estimate_wait_time_spec (st : WebUI.TaskQueue) (queue_size : Nat) (now : ℚ) :
    ((queue_size = 0 ∨ st.execution_times = []) →
      st.estimate_wait_time queue_size now = 0) ∧
    (queue_size ≠ 0 → st.execution_times ≠ [] →
      st.estimate_wait_time queue_size now
        = st.estimate_remaining_time now + queue_size * WebUI.mean st.execution_times) := by
  constructor
  · intro h
    unfold WebUI.TaskQueue.estimate_wait_time
    simp [h]
  · intro h1 h2
    unfold WebUI.TaskQueue.estimate_wait_time
    simp [h1, h2]

/-- Witness for C5 at a concrete state: 3 queued jobs, durations
`[2, 4]`. -/
theorem estimate_wait_time_spec_witness :
    Examples.runningState.estimate_wait_time 3 5
      = Examples.runningState.estimate_remaining_time 5 + 3 * WebUI.mean [2, 4] :=
  (estimate_wait_time_spec Examples.runningState 3 5).2 (by decide) (by decide)

/-- C10: for every task id absent from `task_storage` and every
combination of the other arguments, `update_task_status` returns
normally (it is a total function) and leaves the storage — every stored
task and the set of stored ids — unchanged. -/
theorem update_task_status_missing_noop (s : ApiServer.Storage) (now : ℚ)
    (task_id status : String) (progress : Option ℚ) (error : Option String)
    (result_path : Option String) (h : ApiServer.lookupTask s task_id = none) :
    ApiServer.update_task_status s now task_id status progress error result_path = s := by
  unfold ApiServer.update_task_status
  rw [h]

/-- Witness for C10: updating an unknown id in a one-task storage is a
no-op. -/
theorem update_task_status_missing_noop_witness :
    ApiServer.update_task_status (ApiServer.create_task [] "a" "req" 0) 5 "zzz"
      "running" (some 1) (some "err") (some "r.wav")
      = ApiServer.create_task [] "a" "req" 0 :=
  update_task_status_missing_noop _ 5 "zzz" "running" (some 1) (some "err")
    (some "r.wav") (by decide)

/-- C2: a job's status sequence over its lifetime is `queued` at
admission, then `running`, then exactly one of `completed` or `failed`,
with no regression and no terminal status before `running`, on both
lifecycle implementations.  In `webui.py`: admission sets `queued`, a
worker iteration emits exactly `running` then one terminal status for
the dequeued job, and tasks already in the history are never written
again (every history entry after a step is an unchanged old entry or
the newly finished, terminal task).  In `api_server.py`: the status
stored for a fresh job across `create_task` and the
`update_task_status` calls of `process_tts_task` reads
`queued, running, running, completed` on the success path and
`queued, running, [running,] failed` on the exception path — a
stuttered traversal of the same chain, ending in exactly one terminal
status, never regressing, and never reaching a terminal status before
`running`. -/
theorem job_status_lifecycle (synth : WebUI.Task → Except String String)
    (ts te : ℚ) (st : WebUI.TaskQueue) (task : WebUI.Task) (rest : List WebUI.Task)
    (i : WebUI.TaskInput) (s : ApiServer.Storage)
    (task_id request_data result errmsg : String) (t0 t1 t2 t3 : ℚ)
    (hq : st.queue = task :: rest)
    (hfresh : ApiServer.lookupTask s task_id = none) :
    i.toTask.status = WebUI.TaskStatus.queued ∧
    (WebUI.TaskQueue.worker_step_events synth ts st
        = [(task.id, WebUI.TaskStatus.running), (task.id, WebUI.TaskStatus.completed)] ∨
      WebUI.TaskQueue.worker_step_events synth ts st
        = [(task.id, WebUI.TaskStatus.running), (task.id, WebUI.TaskStatus.failed)]) ∧
    (∀ t ∈ (WebUI.TaskQueue.worker_step synth ts te st).task_history,
      t ∈ st.task_history ∨ t.status = WebUI.TaskStatus.completed
        ∨ t.status = WebUI.TaskStatus.failed) ∧
    ApiServer.tts_task_status_trace_ok s task_id request_data result t0 t1 t2 t3
      = [some "queued", some "running", some "running", some "completed"] ∧
    ApiServer.tts_task_status_trace_fail_late s task_id request_data errmsg t0 t1 t2 t3
      = [some "queued", some "running", some "running", some "failed"] ∧
    ApiServer.tts_task_status_trace_fail_early s task_id request_data errmsg t0 t1 t3
      = [some "queued", some "running", some "failed"] := by
  have h0 := ApiServer.lookupTask_create_fresh s task_id request_data t0 hfresh
  have h1 := ApiServer.update_status_observed
    (ApiServer.create_task s task_id request_data t0)
    task_id t1 "running" (some (1 / 10)) none none (by rw [h0]; rfl)
  refine ⟨rfl, ?_, WebUI.worker_step_history_cases synth ts te st, ?_, ?_, ?_⟩
  · unfold WebUI.TaskQueue.worker_step_events
    rw [hq]
    dsimp only
    split
    · exact Or.inl rfl
    · exact Or.inr rfl
  · have h2 := ApiServer.update_status_observed _ task_id t2 "running" (some (3 / 10))
      none none h1.2
    have h3 := ApiServer.update_status_observed _ task_id t3 "completed" (some 1) none
      (some result) h2.2
    unfold ApiServer.tts_task_status_trace_ok
    dsimp only
    rw [h1.1, h2.1, h3.1, h0]
    rfl
  · have h2 := ApiServer.update_status_observed _ task_id t2 "running" (some (3 / 10))
      none none h1.2
    have h3 := ApiServer.update_status_observed _ task_id t3 "failed" none (some errmsg)
      none h2.2
    unfold ApiServer.tts_task_status_trace_fail_late
    dsimp only
    rw [h1.1, h2.1, h3.1, h0]
    rfl
  · have h3 := ApiServer.update_status_observed _ task_id t3 "failed" none (some errmsg)
      none h1.2
    unfold ApiServer.tts_task_status_trace_fail_early
    dsimp only
    rw [h1.1, h3.1, h0]
    rfl

/-- Witness for C2: the fixture job "a" is observed `running` then
`completed` by the webui worker, and a fresh api-server job "t" is
observed `queued, running, running, completed` along
`process_tts_task`'s success path. -/
theorem job_status_lifecycle_witness :
    (WebUI.TaskQueue.worker_step_events Examples.synthOk 1 Examples.queueA
        = [("a", WebUI.TaskStatus.running), ("a", WebUI.TaskStatus.completed)] ∨
      WebUI.TaskQueue.worker_step_events Examples.synthOk 1 Examples.queueA
        = [("a", WebUI.TaskStatus.running), ("a", WebUI.TaskStatus.failed)]) ∧
    ApiServer.tts_task_status_trace_ok [] "t" "rd" "r.wav" 0 1 2 3
      = [some "queued", some "running", some "running", some "completed"] :=
  ⟨(job_status_lifecycle Examples.synthOk 1 3 Examples.queueA Examples.taskA []
      Examples.inputA [] "t" "rd" "r.wav" "boom" 0 1 2 3 rfl rfl).2.1,
   (job_status_lifecycle Examples.synthOk 1 3 Examples.queueA Examples.taskA []
      Examples.inputA [] "t" "rd" "r.wav" "boom" 0 1 2 3 rfl rfl).2.2.2.1⟩

/-- C3: when the inference call for a dequeued job signals an error, the
worker records the error message on the job, marks it `Failed` with its
end timestamp set, moves it into the history, clears the current-task
slot, and proceeds; the error never escapes the loop (the step is a
total function) and every job still queued behind the failed one is
begun in order afterwards. -/
theorem synth_failure_isolated (synth : WebUI.Task → Except String String)
    (times : Nat → ℚ × ℚ) (ts te : ℚ) (st : WebUI.TaskQueue)
    (task : WebUI.Task) (rest : List WebUI.Task) (e : String)
    (hq : st.queue = task :: rest)
    (herr : synth { task with status := WebUI.TaskStatus.running, start_time := ts }
      = Except.error e) :
    (WebUI.TaskQueue.worker_step synth ts te st).queue = rest ∧
    (WebUI.TaskQueue.worker_step synth ts te st).current_task = none ∧
    (WebUI.TaskQueue.worker_step synth ts te st).task_history.getLast?
      = some { task with
               status := WebUI.TaskStatus.failed
               start_time := ts
               end_time := te
               error_message := some e } ∧
    WebUI.TaskQueue.worker_begin_trace synth times (rest.length + 1) st
      = task.id :: rest.map WebUI.Task.id := by
  have hstep : WebUI.TaskQueue.worker_step synth ts te st
      = { queue := rest,
          current_task := none,
          task_history := WebUI.dequeAppend WebUI.maxHistory st.task_history
            { task with
              status := WebUI.TaskStatus.failed
              start_time := ts
              end_time := te
              error_message := some e },
          execution_times := st.execution_times } := by
    unfold WebUI.TaskQueue.worker_step
    rw [hq]
    dsimp only
    rw [herr]
  refine ⟨?_, ?_, ?_, ?_⟩
  · rw [hstep]
  · rw [hstep]
  · rw [hstep]
    exact WebUI.dequeAppend_getLast? _ _ _
  · have h := WebUI.worker_begin_trace_eq synth (task :: rest) times st hq
    simpa using h

/-- Witness for C3: job "a" fails with "boom", job "b" still runs right
after it. -/
theorem synth_failure_isolated_witness :
    WebUI.TaskQueue.worker_begin_trace Examples.synthBoom (fun _ => (1, 3)) 2
      Examples.queueAB = ["a", "b"] :=
  (synth_failure_isolated Examples.synthBoom (fun _ => (1, 3)) 1 3 Examples.queueAB
    Examples.taskA [Examples.taskB] "boom" rfl rfl).2.2.2

/-- C6 counterexample: a dequeued job that ends `Failed` (started at 1,
ended at 3) leaves `execution_times` empty — its duration `3 - 1` is
not appended, contradicting the claim that the duration is recorded
whether the job completes or fails. -/
theorem failed_duration_not_recorded_cex :
    (WebUI.TaskQueue.worker_step Examples.synthBoom 1 3 Examples.queueA).task_history.map
        WebUI.Task.status = [WebUI.TaskStatus.failed] ∧
    (WebUI.TaskQueue.worker_step Examples.synthBoom 1 3 Examples.queueA).execution_times
      = [] ∧
    ¬ (WebUI.TaskQueue.worker_step Examples.synthBoom 1 3 Examples.queueA).execution_times
      = [3 - 1] := by
  refine ⟨rfl, rfl, ?_⟩
  decide

/-- C6 as amended: only for a job that ends `Completed` does the worker
append `duration = endedAt - startedAt` to the bounded execution
history (capacity 20, evicting the oldest entry when full); for a job
that ends `Failed` the execution history is left unchanged. -/
theorem execution_history_recording (synth : WebUI.Task → Except String String)
    (ts te : ℚ) (st : WebUI.TaskQueue) (task : WebUI.Task) (rest : List WebUI.Task)
    (hq : st.queue = task :: rest) :
    (∀ r, synth { task with status := WebUI.TaskStatus.running, start_time := ts }
        = Except.ok r →
      (WebUI.TaskQueue.worker_step synth ts te st).execution_times
        = (if st.execution_times.length < WebUI.maxExecTimes then st.execution_times
           else st.execution_times.tail) ++ [te - ts]) ∧
    (∀ e, synth { task with status := WebUI.TaskStatus.running, start_time := ts }
        = Except.error e →
      (WebUI.TaskQueue.worker_step synth ts te st).execution_times
        = st.execution_times) := by
  constructor
  · intro r hr
    unfold WebUI.TaskQueue.worker_step
    rw [hq]
    dsimp only
    rw [hr]
    dsimp only
    unfold WebUI.dequeAppend
    split <;> rfl
  · intro e he
    unfold WebUI.TaskQueue.worker_step
    rw [hq]
    dsimp only
    rw [he]

/-- Witness for C6 as amended: a completed job (1 → 3) appends duration
2; a failed job appends nothing. -/
theorem execution_history_recording_witness :
    (WebUI.TaskQueue.worker_step Examples.synthOk 1 3 Examples.queueA).execution_times
      = [2] ∧
    (WebUI.TaskQueue.worker_step Examples.synthBoom 1 3 Examples.queueA).execution_times
      = [] := by
  constructor
  · have h := (execution_history_recording Examples.synthOk 1 3 Examples.queueA
      Examples.taskA [] rfl).1 ("outputs/task_" ++ "a" ++ ".wav") rfl
    rw [h]
    norm_num [Examples.queueA, WebUI.maxExecTimes]
  · exact (execution_history_recording Examples.synthBoom 1 3 Examples.queueA
      Examples.taskA [] rfl).2 "boom" rfl

/-- C7 counterexample: after the first "running" update (at time 1) the
task's `start_time` is 1, but `process_tts_task`'s second "running"
update (at time 2) reassigns it, so after the full pipeline
`start_time` is 2 — `startedAt` was assigned twice and changed after
being set. -/
theorem start_time_reassigned_cex :
    (ApiServer.lookupTask (ApiServer.update_task_status Examples.apiStorageA 1 "a"
        "running" (some (1 / 10)) none none) "a").map ApiServer.ApiTask.start_time
      = some 1 ∧
    (ApiServer.lookupTask (ApiServer.process_tts_task_ok Examples.apiStorageA "a"
        "r.wav" 1 2 3) "a").map ApiServer.ApiTask.start_time = some 2 :=
  ⟨rfl, rfl⟩

/-- C7 as amended: `startedAt` is written only by updates that set the
status to "running" (any other update leaves it unchanged), but every
such update reassigns it — so a job whose processing issues several
"running" updates, as `process_tts_task` does, has `startedAt` set more
than once. -/
theorem start_time_written_only_when_running (s : ApiServer.Storage)
    (task : ApiServer.ApiTask) (now : ℚ) (task_id status : String)
    (progress : Option ℚ) (error : Option String) (result_path : Option String)
    (h : ApiServer.lookupTask s task_id = some task) :
    (status = "running" →
      (ApiServer.lookupTask
          (ApiServer.update_task_status s now task_id status progress error result_path)
          task_id).map ApiServer.ApiTask.start_time = some now) ∧
    (status ≠ "running" →
      (ApiServer.lookupTask
          (ApiServer.update_task_status s now task_id status progress error result_path)
          task_id).map ApiServer.ApiTask.start_time = some task.start_time) := by
  have hl := ApiServer.update_task_status_lookup s task now task_id status progress
    error result_path h
  constructor
  · intro hs
    rw [hl, Option.map_some', ApiServer.applyUpdate_start_time, if_pos hs]
  · intro hs
    rw [hl, Option.map_some', ApiServer.applyUpdate_start_time, if_neg hs]

/-- Witness for C7 as amended: a "running" update at time 1 sets
`start_time` to 1; a "completed" update leaves it at its stored
value 0. -/
theorem start_time_written_only_when_running_witness :
    (ApiServer.lookupTask
        (ApiServer.update_task_status Examples.apiStorageA 1 "a" "running" none none none)
        "a").map ApiServer.ApiTask.start_time = some 1 ∧
    (ApiServer.lookupTask
        (ApiServer.update_task_status Examples.apiStorageA 1 "a" "completed" none none none)
        "a").map ApiServer.ApiTask.start_time = some Examples.apiTaskA.start_time :=
  ⟨(start_time_written_only_when_running Examples.apiStorageA Examples.apiTaskA 1 "a"
      "running" none none none rfl).1 rfl,
   (start_time_written_only_when_running Examples.apiStorageA Examples.apiTaskA 1 "a"
      "completed" none none none rfl).2 (by decide)⟩

/-- C8 counterexample: `get_task_result` hands back the registry's own
task reference, not a copy — the fixture registry's current job is the
object behind reference 0, `get_task_result "a"` returns that same
reference, and a caller writing the status through it changes what the
registry itself observes as the current job's status.  This contradicts
the claim that callers cannot mutate shared state through the returned
value. -/
theorem get_task_result_alias_cex :
    Examples.refState.get_task_result "a" = some 0 ∧
    Examples.refState.current_ref = some 0 ∧
    Examples.refState.currentStatus = some WebUI.TaskStatus.running ∧
    (Examples.refState.callerWriteStatus 0 WebUI.TaskStatus.failed).currentStatus
      = some WebUI.TaskStatus.failed :=
  ⟨rfl, rfl, rfl, rfl⟩

/-- C8 as amended: the status query checks the current in-flight job
first; when the current job misses, an id retained in the terminal
history is answered with a matching history task; an id held by no
retained job yields an explicit `none` rather than a zero-valued job;
however the value returned for a retained job is the registry's own
(live, shared) task reference, never a fresh copy. -/
theorem get_task_result_spec :
    (∀ (st : WebUI.TaskQueue) (ct : WebUI.Task) (tid : String),
        st.current_task = some ct → ct.id = tid →
        st.get_task_result tid = some ct) ∧
    (∀ (st : WebUI.TaskQueue) (tid : String),
        (∀ ct, st.current_task = some ct → ct.id ≠ tid) →
        (∃ t ∈ st.task_history, t.id = tid) →
        ∃ u, st.get_task_result tid = some u ∧ u ∈ st.task_history ∧ u.id = tid) ∧
    (∀ (st : WebUI.TaskQueue) (tid : String),
        (∀ ct, st.current_task = some ct → ct.id ≠ tid) →
        (∀ t ∈ st.task_history, t.id ≠ tid) →
        st.get_task_result tid = none) ∧
    (∀ (rst : WebUIRefs.RTaskQueue) (tid : String) (r : Nat),
        rst.get_task_result tid = some r →
        rst.current_ref = some r ∨ r ∈ rst.history_refs) := by
  refine ⟨?_, ?_, ?_, ?_⟩
  · intro st ct tid hc hid
    unfold WebUI.TaskQueue.get_task_result
    rw [hc]
    simp [hid]
  · intro st tid hcur hex
    have hne : List.find? (fun t => decide (t.id = tid)) st.task_history ≠ none := by
      intro hnone
      obtain ⟨t, ht, hid⟩ := hex
      have := List.find?_eq_none.mp hnone t ht
      simp [hid] at this
    obtain ⟨u, hu⟩ := Option.ne_none_iff_exists'.mp hne
    refine ⟨u, ?_, List.mem_of_find?_eq_some hu, by simpa using List.find?_some hu⟩
    unfold WebUI.TaskQueue.get_task_result
    split
    · next ct hc => rw [if_neg (hcur ct hc)]; exact hu
    · exact hu
  · intro st tid hcur hhist
    unfold WebUI.TaskQueue.get_task_result
    have hfind : List.find? (fun t => decide (t.id = tid)) st.task_history = none :=
      List.find?_eq_none.mpr (fun t ht => by simpa using hhist t ht)
    split
    · next ct hc => rw [if_neg (hcur ct hc), hfind]
    · exact hfind
  · intro rst tid r h
    unfold WebUIRefs.RTaskQueue.get_task_result at h
    split at h
    · next r0 hc =>
      split at h
      · injection h with h'
        subst h'
        exact Or.inl hc
      · exact Or.inr (List.mem_of_find?_eq_some h)
    · next hc =>
      exact Or.inr (List.mem_of_find?_eq_some h)

/-- Witness for C8 as amended: the concrete running state answers a
query for the current job's id with the current job; the state whose
job "a" is retained only in the history (while "b" runs) answers a
query for "a" with a history task bearing that id; and the reference
model's answer for "a" is one of the registry's own references. -/
theorem get_task_result_spec_witness :
    Examples.runningState.get_task_result "a"
      = some { Examples.taskA with status := WebUI.TaskStatus.running, start_time := 1 } ∧
    (∃ u, Examples.historyState.get_task_result "a" = some u ∧
      u ∈ Examples.historyState.task_history ∧ u.id = "a") ∧
    (Examples.refState.current_ref = some 0 ∨ 0 ∈ Examples.refState.history_refs) :=
  ⟨get_task_result_spec.1 Examples.runningState _ "a" rfl rfl,
   get_task_result_spec.2.1 Examples.historyState "a"
     (fun ct hc => by injection hc with h; rw [← h]; decide)
     ⟨Examples.taskADone, List.mem_singleton.mpr rfl, rfl⟩,
   get_task_result_spec.2.2.2 Examples.refState "a" 0 rfl⟩
